import Mathlib

/-!
Verification of the 6502 emulator core (`src/cpu.rs`, `src/mem.rs`, `src/opcode.rs`).

The Rust source is shallowly embedded: bytes and words are `Nat` with explicit
`% 256` / `% 65536` where the machine types wrap, and every operation that can
panic (out-of-bounds memory indexing, the deliberate panic on reading address
0x0F, `checked_sub`/`checked_add` `.expect`, assertions, `todo!()` stubs, and
plain `+`/`-` on machine integers, which are overflow-checked in the profile
the emulator is built and run in) is modelled in `Option`, `none` meaning the
run dies.  Field and function names follow the source.
-/

namespace Emu6502

/-! ## Memory (`src/mem.rs`) -/

/-- `pub const MAX_MEMORY: Word = Word::MAX;` — note this is 0xFFFF = 65535,
so the backing array `data: [u8; MAX_MEMORY as usize]` holds 65535 bytes,
indices 0x0000 ..= 0xFFFE. -/
def MAX_MEMORY : Nat := 0xFFFF

/-- The memory store: `data: [u8; MAX_MEMORY as usize]`, modelled as a total
function; only indices below `MAX_MEMORY` are accessible. -/
structure Memory where
  data : Nat → Nat

/-- `Memory::new`: the array `[0; MAX_MEMORY as usize]`. -/
def Memory.new : Memory := ⟨fun _ => 0⟩

/-- `Memory::read`: panics on address 0x0F ("can't read from stdout"),
then indexes the 65535-byte array (out of bounds iff address = 0xFFFF). -/
def Memory.read (m : Memory) (address : Nat) : Option Nat :=
  if address = 0x0F then none
  else if address < MAX_MEMORY then some (m.data address)
  else none

/-- `Memory::write`: prints on address 0x0F (irrelevant to state), then
stores into the 65535-byte array (out of bounds iff address = 0xFFFF). -/
def Memory.write (m : Memory) (address data : Nat) : Option Memory :=
  if address < MAX_MEMORY then some ⟨fun i => if i = address then data else m.data i⟩
  else none

/-- Helper for concrete test images: memory holding the given
(address, byte) pairs and 0 elsewhere. -/
def Memory.ofList (l : List (Nat × Nat)) : Memory :=
  ⟨fun i => (l.lookup i).getD 0⟩

/-! ## Processor status (`bitflags! ProcessorStatus : u8` in `src/cpu.rs`)

The `bitflags!` invocation declares one flag at every bit of the byte:
Carry 0x01, Zero 0x02, InterruptDisable 0x04, DecimalMode 0x08, Break 0x10,
`_Unused` 0x20, Overflow 0x40, Negative 0x80.  We model the bitset as a
record of the eight flag bits; `bits` / `from_bits_truncate` convert to and
from the byte view.  Because flags are declared at all eight bits, the mask
of defined bits is 0xFF and `from_bits_truncate` keeps every bit of its
argument byte — including bit 5, the `_Unused` flag. -/

inductive StatusFlag
| Carry
| Zero
| InterruptDisable
| DecimalMode
| Break
| Unused
| Overflow
| Negative
deriving DecidableEq

structure ProcessorStatus where
  Carry : Bool
  Zero : Bool
  InterruptDisable : Bool
  DecimalMode : Bool
  Break : Bool
  Unused : Bool
  Overflow : Bool
  Negative : Bool
deriving DecidableEq

/-- `ProcessorStatus::empty()`. -/
def ProcessorStatus.empty : ProcessorStatus :=
  ⟨false, false, false, false, false, false, false, false⟩

/-- `status.set(flag, value)`. -/
def ProcessorStatus.set (s : ProcessorStatus) (f : StatusFlag) (value : Bool) :
    ProcessorStatus :=
  match f with
  | .Carry => { s with Carry := value }
  | .Zero => { s with Zero := value }
  | .InterruptDisable => { s with InterruptDisable := value }
  | .DecimalMode => { s with DecimalMode := value }
  | .Break => { s with Break := value }
  | .Unused => { s with Unused := value }
  | .Overflow => { s with Overflow := value }
  | .Negative => { s with Negative := value }

/-- `status.contains(flag)` (each flag is a single bit). -/
def ProcessorStatus.contains (s : ProcessorStatus) (f : StatusFlag) : Bool :=
  match f with
  | .Carry => s.Carry
  | .Zero => s.Zero
  | .InterruptDisable => s.InterruptDisable
  | .DecimalMode => s.DecimalMode
  | .Break => s.Break
  | .Unused => s.Unused
  | .Overflow => s.Overflow
  | .Negative => s.Negative

/-- `status.bits()`: the packed byte. -/
def ProcessorStatus.bits (s : ProcessorStatus) : Nat :=
  (if s.Carry then 0x01 else 0) + (if s.Zero then 0x02 else 0) +
  (if s.InterruptDisable then 0x04 else 0) + (if s.DecimalMode then 0x08 else 0) +
  (if s.Break then 0x10 else 0) + (if s.Unused then 0x20 else 0) +
  (if s.Overflow then 0x40 else 0) + (if s.Negative then 0x80 else 0)

/-- `ProcessorStatus::from_bits_truncate(b)`: clears bits not belonging to any
declared flag.  All eight bits are declared flags (`_Unused` included), so the
mask is 0xFF and every bit of `b` is kept. -/
def ProcessorStatus.from_bits_truncate (b : Nat) : ProcessorStatus :=
  ⟨b.testBit 0, b.testBit 1, b.testBit 2, b.testBit 3,
   b.testBit 4, b.testBit 5, b.testBit 6, b.testBit 7⟩

/-! ## Machine-integer arithmetic

`Byte = u8`, `Word = u16`.  The source mixes `wrapping_add` (translated with
an explicit `% 256` / `% 65536`), `checked_add` / `checked_sub` (translated
to `Option`), and plain `+` / `-` on `Word`, which is overflow-checked in the
debug profile the emulator runs under (`debug_assertions` blocks in
`Cpu::run`), so it is translated as a checked operation too. -/

/-- Plain `+` on a `Word` (overflow-checked). -/
def wordAdd (a b : Nat) : Option Nat :=
  if a + b ≤ 0xFFFF then some (a + b) else none

/-- Plain `-` on a `Word` (underflow-checked). -/
def wordSub (a b : Nat) : Option Nat :=
  if b ≤ a then some (a - b) else none

/-! ## Opcode and addressing mode (`src/opcode.rs`) -/

inductive Opcode
| Adc | And | Asl | Bcc | Bcs | Beq | Bit | Bmi | Bne | Bpl | Brk | Bvc | Bvs
| Clc | Cld | Cli | Clv | Cmp | Cpx | Cpy | Dec | Dex | Dey | Eor | Inc | Inx
| Iny | Jmp | Jsr | Lda | Ldx | Ldy | Lsr | Nop | Ora | Pha | Php | Pla | Plp
| Rol | Ror | Rti | Rts | Sbc | Sec | Sed | Sei | Sta | Stx | Sty | Tax | Tay
| Tsx | Txa | Txs | Tya
deriving DecidableEq

inductive AddressingMode
| Implicit
| Accumulator
| Immediate
| ZeroPage
| ZeroPageX
| ZeroPageY
| Relative
| Absolute
| AbsoluteX
| AbsoluteY
| Indirect
| IndexedIndirect
| IndirectIndexed
deriving DecidableEq

structure Instruction where
  opcode : Opcode
  addressing_mode : AddressingMode
deriving DecidableEq

/-! ## CPU state (`src/cpu.rs`) -/

def CODE_START : Nat := 0xC000
def STACK_START : Nat := 0x0100
def STACK_END : Nat := 0x01FF
def RESET_VECTOR : Nat := 0xFFFC

structure Cpu where
  memory : Memory
  pc : Nat
  sp : Nat
  a : Nat
  x : Nat
  y : Nat
  status : ProcessorStatus

/-- `Cpu::new(memory)`. -/
def Cpu.new (memory : Memory) : Cpu :=
  { memory := memory, pc := CODE_START, sp := 0xFF, a := 0, x := 0, y := 0,
    status := ProcessorStatus.empty }

/-- `Cpu::fetch_and_advance_pc`: read the byte at `pc`, then `pc += 1`. -/
def Cpu.fetch_and_advance_pc (cpu : Cpu) : Option (Nat × Cpu) :=
  (cpu.memory.read cpu.pc).bind fun byte =>
  (wordAdd cpu.pc 1).map fun pc2 => (byte, { cpu with pc := pc2 })

/-- `Cpu::push`: write at `STACK_START + sp`, then `sp.checked_sub(1).expect(..)`
(fatal iff `sp` was already 0). -/
def Cpu.push (cpu : Cpu) (byte : Nat) : Option Cpu :=
  let address := STACK_START + cpu.sp
  (cpu.memory.write address byte).bind fun m =>
  if cpu.sp = 0 then none
  else some { cpu with memory := m, sp := cpu.sp - 1 }

/-- `Cpu::pop`: `sp.checked_add(1).expect(..)` (fatal iff `sp` was already
0xFF, the u8 maximum), then read at `STACK_START + sp`. -/
def Cpu.pop (cpu : Cpu) : Option (Nat × Cpu) :=
  if cpu.sp = 0xFF then none
  else
    let sp2 := cpu.sp + 1
    ((Memory.read cpu.memory (STACK_START + sp2)).map fun b =>
      (b, { cpu with sp := sp2 }))

/-- `Cpu::resolve_argument_address`.  Accumulator / Implicit / Immediate hit
`unreachable!`; the `Relative` arm falls to the catch-all `unimplemented!`. -/
def Cpu.resolve_argument_address (cpu : Cpu) (addressing_mode : AddressingMode) :
    Option (Nat × Cpu) :=
  match addressing_mode with
  | .Accumulator | .Implicit | .Immediate => none
  | .ZeroPage => cpu.fetch_and_advance_pc
  | .ZeroPageX =>
      (cpu.fetch_and_advance_pc).map fun r => ((r.1 + r.2.x) % 256, r.2)
  | .ZeroPageY =>
      (cpu.fetch_and_advance_pc).map fun r => ((r.1 + r.2.y) % 256, r.2)
  | .Absolute =>
      (cpu.fetch_and_advance_pc).bind fun rl =>
      (rl.2.fetch_and_advance_pc).map fun rh =>
      ((rh.1 <<< 8) ||| rl.1, rh.2)
  | .AbsoluteX =>
      (cpu.fetch_and_advance_pc).bind fun rl =>
      (rl.2.fetch_and_advance_pc).map fun rh =>
      ((((rh.1 <<< 8) ||| rl.1) + rh.2.x) % 65536, rh.2)
  | .AbsoluteY =>
      (cpu.fetch_and_advance_pc).bind fun rl =>
      (rl.2.fetch_and_advance_pc).map fun rh =>
      ((((rh.1 <<< 8) ||| rl.1) + rh.2.y) % 65536, rh.2)
  | .Indirect =>
      (cpu.fetch_and_advance_pc).bind fun rl =>
      (rl.2.fetch_and_advance_pc).bind fun rh =>
      let address := (rh.1 <<< 8) ||| rl.1
      (rh.2.memory.read address).bind fun low2 =>
      (wordAdd address 1).bind fun address1 =>
      (rh.2.memory.read address1).map fun high2 =>
      ((high2 <<< 8) ||| low2, rh.2)
  | .IndexedIndirect =>
      (cpu.fetch_and_advance_pc).bind fun r =>
      let address := (r.1 + r.2.x) % 256
      (r.2.memory.read address).bind fun low2 =>
      (wordAdd address 1).bind fun address1 =>
      (r.2.memory.read address1).map fun high2 =>
      ((high2 <<< 8) ||| low2, r.2)
  | .IndirectIndexed =>
      (cpu.fetch_and_advance_pc).bind fun r =>
      (r.2.memory.read r.1).bind fun low2 =>
      (wordAdd r.1 1).bind fun address1 =>
      (r.2.memory.read address1).map fun high2 =>
      ((((high2 <<< 8) ||| low2) + r.2.y) % 65536, r.2)
  | .Relative => none

/-- `Cpu::resolve_argument_value`. -/
def Cpu.resolve_argument_value (cpu : Cpu) (addressing_mode : AddressingMode) :
    Option (Nat × Cpu) :=
  if addressing_mode = .Immediate then cpu.fetch_and_advance_pc
  else if addressing_mode = .Accumulator then some (cpu.a, cpu)
  else
    (cpu.resolve_argument_address addressing_mode).bind fun r =>
    (r.2.memory.read r.1).map fun v => (v, r.2)

/-- `Cpu::set_zero_and_negative_flags`. -/
def Cpu.set_zero_and_negative_flags (cpu : Cpu) (value : Nat) : Cpu :=
  let s1 := cpu.status.set .Zero (decide (value = 0))
  let s2 := s1.set .Negative (decide (0 < value &&& 0b10000000))
  { cpu with status := s2 }

/-- `Cpu::execute_adc`: `overflowing_add` on u8, Carry from the unsigned
carry-out, Overflow from `(A ^ result) & (operand ^ result) & 0x80 > 0`
(computed before `A` is overwritten), then Zero/Negative from the result. -/
def Cpu.execute_adc (cpu : Cpu) (addressing_mode : AddressingMode) : Option Cpu :=
  (cpu.resolve_argument_value addressing_mode).map fun r =>
    let value := r.1
    let c := r.2
    let new_value := (c.a + value) % 256
    let carry := decide (255 < c.a + value)
    let c1 := { c with status := c.status.set .Carry carry }
    let overflow := decide (0 < (c.a ^^^ new_value) &&& (value ^^^ new_value) &&& 0x80)
    let c2 := { c1 with status := c1.status.set .Overflow overflow }
    let c3 := { c2 with a := new_value }
    c3.set_zero_and_negative_flags c3.a

/-- `Cpu::execute_jmp`. -/
def Cpu.execute_jmp (cpu : Cpu) (addressing_mode : AddressingMode) : Option Cpu :=
  (cpu.resolve_argument_address addressing_mode).map fun r => { r.2 with pc := r.1 }

/-- `Cpu::execute_jsr`: `debug_assert_eq!(mode, Absolute)`; pushes
`pc - 1` high byte then low byte, then jumps. -/
def Cpu.execute_jsr (cpu : Cpu) (addressing_mode : AddressingMode) : Option Cpu :=
  if addressing_mode = .Absolute then
    (cpu.resolve_argument_address addressing_mode).bind fun r =>
    (wordSub r.2.pc 1).bind fun return_address =>
    (r.2.push ((return_address >>> 8) % 256)).bind fun c2 =>
    (c2.push (return_address &&& 0xFF)).map fun c3 =>
    { c3 with pc := r.1 }
  else none

/-- `Cpu::execute_lda`. -/
def Cpu.execute_lda (cpu : Cpu) (addressing_mode : AddressingMode) : Option Cpu :=
  (cpu.resolve_argument_value addressing_mode).map fun r =>
    { r.2.set_zero_and_negative_flags r.1 with a := r.1 }

/-- `Cpu::execute_ldx`. -/
def Cpu.execute_ldx (cpu : Cpu) (addressing_mode : AddressingMode) : Option Cpu :=
  (cpu.resolve_argument_value addressing_mode).map fun r =>
    { r.2.set_zero_and_negative_flags r.1 with x := r.1 }

/-- `Cpu::execute_ldy`. -/
def Cpu.execute_ldy (cpu : Cpu) (addressing_mode : AddressingMode) : Option Cpu :=
  (cpu.resolve_argument_value addressing_mode).map fun r =>
    { r.2.set_zero_and_negative_flags r.1 with y := r.1 }

/-- The local closure `lsr` in `Cpu::execute_lsr`: Carry from bit 0, shift
right, Zero/Negative from the result; returns the new value. -/
def Cpu.lsr (cpu : Cpu) (value : Nat) : Nat × Cpu :=
  let c1 := { cpu with status := cpu.status.set .Carry (decide (0 < value &&& 0b00000001)) }
  let new_value := value >>> 1
  (new_value, c1.set_zero_and_negative_flags new_value)

/-- `Cpu::execute_lsr`: `assert_ne!(mode, Immediate)`; accumulator mode writes
the result back to `A`, the other modes write it back to the addressed byte. -/
def Cpu.execute_lsr (cpu : Cpu) (addressing_mode : AddressingMode) : Option Cpu :=
  if addressing_mode = .Immediate then none
  else if addressing_mode = .Accumulator then
    let r := cpu.lsr cpu.a
    some { r.2 with a := r.1 }
  else
    (cpu.resolve_argument_address addressing_mode).bind fun ra =>
    (ra.2.memory.read ra.1).bind fun value =>
    let r := ra.2.lsr value
    (r.2.memory.write ra.1 r.1).map fun m => { r.2 with memory := m }

/-- `Cpu::execute_ora`. -/
def Cpu.execute_ora (cpu : Cpu) (addressing_mode : AddressingMode) : Option Cpu :=
  (cpu.resolve_argument_value addressing_mode).map fun r =>
    let c := { r.2 with a := r.2.a ||| r.1 }
    c.set_zero_and_negative_flags c.a

/-- `Cpu::execute_pha`: `debug_assert_eq!(mode, Implicit)`; pushes `A`. -/
def Cpu.execute_pha (cpu : Cpu) (addressing_mode : AddressingMode) : Option Cpu :=
  if addressing_mode = .Implicit then cpu.push cpu.a else none

/-- `Cpu::execute_php`: pushes `status.bits()`. -/
def Cpu.execute_php (cpu : Cpu) (addressing_mode : AddressingMode) : Option Cpu :=
  if addressing_mode = .Implicit then cpu.push cpu.status.bits else none

/-- `Cpu::execute_pla`: pops into `A`, then Zero/Negative from it. -/
def Cpu.execute_pla (cpu : Cpu) (addressing_mode : AddressingMode) : Option Cpu :=
  if addressing_mode = .Implicit then
    (cpu.pop).map fun r =>
      let c := { r.2 with a := r.1 }
      c.set_zero_and_negative_flags c.a
  else none

/-- `Cpu::execute_plp`: `status = ProcessorStatus::from_bits_truncate(pop())`. -/
def Cpu.execute_plp (cpu : Cpu) (addressing_mode : AddressingMode) : Option Cpu :=
  if addressing_mode = .Implicit then
    (cpu.pop).map fun r => { r.2 with status := ProcessorStatus.from_bits_truncate r.1 }
  else none

/-- The local closure `rol` in `Cpu::execute_rol`: shift left (u8, truncating),
or in the old Carry as bit 0, Zero/Negative from the result, then — as written
in the source — `cpu.a = new_value` even when invoked from a memory addressing
mode, and finally Carry from bit 7 of the old value. -/
def Cpu.rol (cpu : Cpu) (value : Nat) : Nat × Cpu :=
  let nv0 := (value <<< 1) % 256
  let new_value := if cpu.status.contains .Carry then nv0 ||| 1 else nv0
  let c1 := cpu.set_zero_and_negative_flags new_value
  let c2 := { c1 with a := new_value }
  let c3 := { c2 with status := c2.status.set .Carry (decide (0 < value &&& 0b10000000)) }
  (new_value, c3)

/-- `Cpu::execute_rol`. -/
def Cpu.execute_rol (cpu : Cpu) (addressing_mode : AddressingMode) : Option Cpu :=
  if addressing_mode = .Accumulator then
    let r := cpu.rol cpu.a
    some { r.2 with a := r.1 }
  else
    (cpu.resolve_argument_address addressing_mode).bind fun ra =>
    (ra.2.memory.read ra.1).bind fun value =>
    let r := ra.2.rol value
    (r.2.memory.write ra.1 r.1).map fun m => { r.2 with memory := m }

/-- The local closure `ror` in `Cpu::execute_ror`: shift right, or in the old
Carry as bit 7, Zero/Negative from the result, then — as written in the
source — `cpu.a = new_value` even when invoked from a memory addressing mode,
and finally Carry from bit 0 of the old value. -/
def Cpu.ror (cpu : Cpu) (value : Nat) : Nat × Cpu :=
  let nv0 := value >>> 1
  let new_value := if cpu.status.contains .Carry then nv0 ||| 0b10000000 else nv0
  let c1 := cpu.set_zero_and_negative_flags new_value
  let c2 := { c1 with a := new_value }
  let c3 := { c2 with status := c2.status.set .Carry (decide (0 < value &&& 0b00000001)) }
  (new_value, c3)

/-- `Cpu::execute_ror`. -/
def Cpu.execute_ror (cpu : Cpu) (addressing_mode : AddressingMode) : Option Cpu :=
  if addressing_mode = .Accumulator then
    let r := cpu.ror cpu.a
    some { r.2 with a := r.1 }
  else
    (cpu.resolve_argument_address addressing_mode).bind fun ra =>
    (ra.2.memory.read ra.1).bind fun value =>
    let r := ra.2.ror value
    (r.2.memory.write ra.1 r.1).map fun m => { r.2 with memory := m }

/-- `Cpu::execute_rti`: pops status, then low then high program-counter
bytes; no increment. -/
def Cpu.execute_rti (cpu : Cpu) (addressing_mode : AddressingMode) : Option Cpu :=
  if addressing_mode = .Implicit then
    (cpu.pop).bind fun rs =>
    let c0 := { rs.2 with status := ProcessorStatus.from_bits_truncate rs.1 }
    (c0.pop).bind fun rl =>
    (rl.2.pop).map fun rh =>
    { rh.2 with pc := (rh.1 <<< 8) ||| rl.1 }
  else none

/-- `Cpu::execute_rts`: pops low then high, reconstructs, then `pc += 1`. -/
def Cpu.execute_rts (cpu : Cpu) (addressing_mode : AddressingMode) : Option Cpu :=
  if addressing_mode = .Implicit then
    (cpu.pop).bind fun rl =>
    (rl.2.pop).bind fun rh =>
    (wordAdd ((rh.1 <<< 8) ||| rl.1) 1).map fun pc2 =>
    { rh.2 with pc := pc2 }
  else none

/-! The 39 unimplemented handlers.  Each body in the source is `todo!()`,
which panics unconditionally. -/

def Cpu.execute_and (_cpu : Cpu) (_m : AddressingMode) : Option Cpu := none
def Cpu.execute_asl (_cpu : Cpu) (_m : AddressingMode) : Option Cpu := none
def Cpu.execute_bcc (_cpu : Cpu) (_m : AddressingMode) : Option Cpu := none
def Cpu.execute_bcs (_cpu : Cpu) (_m : AddressingMode) : Option Cpu := none
def Cpu.execute_beq (_cpu : Cpu) (_m : AddressingMode) : Option Cpu := none
def Cpu.execute_bit (_cpu : Cpu) (_m : AddressingMode) : Option Cpu := none
def Cpu.execute_bmi (_cpu : Cpu) (_m : AddressingMode) : Option Cpu := none
def Cpu.execute_bne (_cpu : Cpu) (_m : AddressingMode) : Option Cpu := none
def Cpu.execute_bpl (_cpu : Cpu) (_m : AddressingMode) : Option Cpu := none
def Cpu.execute_brk (_cpu : Cpu) (_m : AddressingMode) : Option Cpu := none
def Cpu.execute_bvc (_cpu : Cpu) (_m : AddressingMode) : Option Cpu := none
def Cpu.execute_bvs (_cpu : Cpu) (_m : AddressingMode) : Option Cpu := none
def Cpu.execute_clc (_cpu : Cpu) (_m : AddressingMode) : Option Cpu := none
def Cpu.execute_cld (_cpu : Cpu) (_m : AddressingMode) : Option Cpu := none
def Cpu.execute_cli (_cpu : Cpu) (_m : AddressingMode) : Option Cpu := none
def Cpu.execute_clv (_cpu : Cpu) (_m : AddressingMode) : Option Cpu := none
def Cpu.execute_cmp (_cpu : Cpu) (_m : AddressingMode) : Option Cpu := none
def Cpu.execute_cpx (_cpu : Cpu) (_m : AddressingMode) : Option Cpu := none
def Cpu.execute_cpy (_cpu : Cpu) (_m : AddressingMode) : Option Cpu := none
def Cpu.execute_dec (_cpu : Cpu) (_m : AddressingMode) : Option Cpu := none
def Cpu.execute_dex (_cpu : Cpu) (_m : AddressingMode) : Option Cpu := none
def Cpu.execute_dey (_cpu : Cpu) (_m : AddressingMode) : Option Cpu := none
def Cpu.execute_eor (_cpu : Cpu) (_m : AddressingMode) : Option Cpu := none
def Cpu.execute_inc (_cpu : Cpu) (_m : AddressingMode) : Option Cpu := none
def Cpu.execute_inx (_cpu : Cpu) (_m : AddressingMode) : Option Cpu := none
def Cpu.execute_iny (_cpu : Cpu) (_m : AddressingMode) : Option Cpu := none
def Cpu.execute_sbc (_cpu : Cpu) (_m : AddressingMode) : Option Cpu := none
def Cpu.execute_sec (_cpu : Cpu) (_m : AddressingMode) : Option Cpu := none
def Cpu.execute_sed (_cpu : Cpu) (_m : AddressingMode) : Option Cpu := none
def Cpu.execute_sei (_cpu : Cpu) (_m : AddressingMode) : Option Cpu := none
def Cpu.execute_sta (_cpu : Cpu) (_m : AddressingMode) : Option Cpu := none
def Cpu.execute_stx (_cpu : Cpu) (_m : AddressingMode) : Option Cpu := none
def Cpu.execute_sty (_cpu : Cpu) (_m : AddressingMode) : Option Cpu := none
def Cpu.execute_tax (_cpu : Cpu) (_m : AddressingMode) : Option Cpu := none
def Cpu.execute_tay (_cpu : Cpu) (_m : AddressingMode) : Option Cpu := none
def Cpu.execute_tsx (_cpu : Cpu) (_m : AddressingMode) : Option Cpu := none
def Cpu.execute_txa (_cpu : Cpu) (_m : AddressingMode) : Option Cpu := none
def Cpu.execute_txs (_cpu : Cpu) (_m : AddressingMode) : Option Cpu := none
def Cpu.execute_tya (_cpu : Cpu) (_m : AddressingMode) : Option Cpu := none

/-- `impl TryFrom<Byte> for Instruction` (`src/opcode.rs`): the decode table.
`none` models `Err(DecodeError)`. -/
def Instruction.try_from (value : Nat) : Option Instruction :=
  match value with
  | 0x69 => some ⟨.Adc, .Immediate⟩
  | 0x65 => some ⟨.Adc, .ZeroPage⟩
  | 0x75 => some ⟨.Adc, .ZeroPageX⟩
  | 0x6D => some ⟨.Adc, .Absolute⟩
  | 0x7D => some ⟨.Adc, .AbsoluteX⟩
  | 0x79 => some ⟨.Adc, .AbsoluteY⟩
  | 0x61 => some ⟨.Adc, .IndexedIndirect⟩
  | 0x71 => some ⟨.Adc, .IndirectIndexed⟩
  | 0x29 => some ⟨.And, .Immediate⟩
  | 0x25 => some ⟨.And, .ZeroPage⟩
  | 0x35 => some ⟨.And, .ZeroPageX⟩
  | 0x2D => some ⟨.And, .Absolute⟩
  | 0x3D => some ⟨.And, .AbsoluteX⟩
  | 0x39 => some ⟨.And, .AbsoluteY⟩
  | 0x21 => some ⟨.And, .IndexedIndirect⟩
  | 0x31 => some ⟨.And, .IndirectIndexed⟩
  | 0x0A => some ⟨.Asl, .Accumulator⟩
  | 0x06 => some ⟨.Asl, .ZeroPage⟩
  | 0x16 => some ⟨.Asl, .ZeroPageX⟩
  | 0x0E => some ⟨.Asl, .Absolute⟩
  | 0x1E => some ⟨.Asl, .AbsoluteX⟩
  | 0x90 => some ⟨.Bcc, .Relative⟩
  | 0xB0 => some ⟨.Bcs, .Relative⟩
  | 0xF0 => some ⟨.Beq, .Relative⟩
  | 0x24 => some ⟨.Bit, .ZeroPage⟩
  | 0x2C => some ⟨.Bit, .Absolute⟩
  | 0x30 => some ⟨.Bmi, .Relative⟩
  | 0xD0 => some ⟨.Bne, .Relative⟩
  | 0x10 => some ⟨.Bpl, .Relative⟩
  | 0x00 => some ⟨.Brk, .Implicit⟩
  | 0x50 => some ⟨.Bvc, .Relative⟩
  | 0x70 => some ⟨.Bvs, .Relative⟩
  | 0x18 => some ⟨.Clc, .Implicit⟩
  | 0xD8 => some ⟨.Cld, .Implicit⟩
  | 0x58 => some ⟨.Cli, .Implicit⟩
  | 0xB8 => some ⟨.Clv, .Implicit⟩
  | 0xC9 => some ⟨.Cmp, .Immediate⟩
  | 0xC5 => some ⟨.Cmp, .ZeroPage⟩
  | 0xD5 => some ⟨.Cmp, .ZeroPageX⟩
  | 0xCD => some ⟨.Cmp, .Absolute⟩
  | 0xDD => some ⟨.Cmp, .AbsoluteX⟩
  | 0xD9 => some ⟨.Cmp, .AbsoluteY⟩
  | 0xC1 => some ⟨.Cmp, .IndexedIndirect⟩
  | 0xD1 => some ⟨.Cmp, .IndirectIndexed⟩
  | 0xE0 => some ⟨.Cpx, .Immediate⟩
  | 0xE4 => some ⟨.Cpx, .ZeroPage⟩
  | 0xEC => some ⟨.Cpx, .Absolute⟩
  | 0xC0 => some ⟨.Cpy, .Immediate⟩
  | 0xC4 => some ⟨.Cpy, .ZeroPage⟩
  | 0xCC => some ⟨.Cpy, .Absolute⟩
  | 0xC6 => some ⟨.Dec, .ZeroPage⟩
  | 0xD6 => some ⟨.Dec, .ZeroPageX⟩
  | 0xCE => some ⟨.Dec, .Absolute⟩
  | 0xDE => some ⟨.Dec, .AbsoluteX⟩
  | 0xCA => some ⟨.Dex, .Implicit⟩
  | 0x88 => some ⟨.Dey, .Implicit⟩
  | 0x49 => some ⟨.Eor, .Immediate⟩
  | 0x45 => some ⟨.Eor, .ZeroPage⟩
  | 0x55 => some ⟨.Eor, .ZeroPageX⟩
  | 0x4D => some ⟨.Eor, .Absolute⟩
  | 0x5D => some ⟨.Eor, .AbsoluteX⟩
  | 0x59 => some ⟨.Eor, .AbsoluteY⟩
  | 0x41 => some ⟨.Eor, .IndexedIndirect⟩
  | 0x51 => some ⟨.Eor, .IndirectIndexed⟩
  | 0xE6 => some ⟨.Inc, .ZeroPage⟩
  | 0xF6 => some ⟨.Inc, .ZeroPageX⟩
  | 0xEE => some ⟨.Inc, .Absolute⟩
  | 0xFE => some ⟨.Inc, .AbsoluteX⟩
  | 0xE8 => some ⟨.Inx, .Implicit⟩
  | 0xC8 => some ⟨.Iny, .Implicit⟩
  | 0x4C => some ⟨.Jmp, .Absolute⟩
  | 0x6C => some ⟨.Jmp, .Indirect⟩
  | 0x20 => some ⟨.Jsr, .Absolute⟩
  | 0xA9 => some ⟨.Lda, .Immediate⟩
  | 0xA5 => some ⟨.Lda, .ZeroPage⟩
  | 0xB5 => some ⟨.Lda, .ZeroPageX⟩
  | 0xAD => some ⟨.Lda, .Absolute⟩
  | 0xBD => some ⟨.Lda, .AbsoluteX⟩
  | 0xB9 => some ⟨.Lda, .AbsoluteY⟩
  | 0xA1 => some ⟨.Lda, .IndexedIndirect⟩
  | 0xB1 => some ⟨.Lda, .IndirectIndexed⟩
  | 0xA2 => some ⟨.Ldx, .Immediate⟩
  | 0xA6 => some ⟨.Ldx, .ZeroPage⟩
  | 0xB6 => some ⟨.Ldx, .ZeroPageY⟩
  | 0xAE => some ⟨.Ldx, .Absolute⟩
  | 0xBE => some ⟨.Ldx, .AbsoluteY⟩
  | 0xA0 => some ⟨.Ldy, .Immediate⟩
  | 0xA4 => some ⟨.Ldy, .ZeroPage⟩
  | 0xB4 => some ⟨.Ldy, .ZeroPageX⟩
  | 0xAC => some ⟨.Ldy, .Absolute⟩
  | 0xBC => some ⟨.Ldy, .AbsoluteX⟩
  | 0x4A => some ⟨.Lsr, .Accumulator⟩
  | 0x46 => some ⟨.Lsr, .ZeroPage⟩
  | 0x56 => some ⟨.Lsr, .ZeroPageX⟩
  | 0x4E => some ⟨.Lsr, .Absolute⟩
  | 0x5E => some ⟨.Lsr, .AbsoluteX⟩
  | 0xEA => some ⟨.Nop, .Implicit⟩
  | 0x09 => some ⟨.Ora, .Immediate⟩
  | 0x05 => some ⟨.Ora, .ZeroPage⟩
  | 0x15 => some ⟨.Ora, .ZeroPageX⟩
  | 0x0D => some ⟨.Ora, .Absolute⟩
  | 0x1D => some ⟨.Ora, .AbsoluteX⟩
  | 0x19 => some ⟨.Ora, .AbsoluteY⟩
  | 0x01 => some ⟨.Ora, .IndexedIndirect⟩
  | 0x11 => some ⟨.Ora, .IndirectIndexed⟩
  | 0x48 => some ⟨.Pha, .Implicit⟩
  | 0x08 => some ⟨.Php, .Implicit⟩
  | 0x68 => some ⟨.Pla, .Implicit⟩
  | 0x28 => some ⟨.Plp, .Implicit⟩
  | 0x2A => some ⟨.Rol, .Accumulator⟩
  | 0x26 => some ⟨.Rol, .ZeroPage⟩
  | 0x36 => some ⟨.Rol, .ZeroPageX⟩
  | 0x2E => some ⟨.Rol, .Absolute⟩
  | 0x3E => some ⟨.Rol, .AbsoluteX⟩
  | 0x6A => some ⟨.Ror, .Accumulator⟩
  | 0x66 => some ⟨.Ror, .ZeroPage⟩
  | 0x76 => some ⟨.Ror, .ZeroPageX⟩
  | 0x6E => some ⟨.Ror, .Absolute⟩
  | 0x7E => some ⟨.Ror, .AbsoluteX⟩
  | 0x40 => some ⟨.Rti, .Implicit⟩
  | 0x60 => some ⟨.Rts, .Implicit⟩
  | 0xE9 => some ⟨.Sbc, .Immediate⟩
  | 0xE5 => some ⟨.Sbc, .ZeroPage⟩
  | 0xF5 => some ⟨.Sbc, .ZeroPageX⟩
  | 0xED => some ⟨.Sbc, .Absolute⟩
  | 0xFD => some ⟨.Sbc, .AbsoluteX⟩
  | 0xF9 => some ⟨.Sbc, .AbsoluteY⟩
  | 0xE1 => some ⟨.Sbc, .IndexedIndirect⟩
  | 0xF1 => some ⟨.Sbc, .IndirectIndexed⟩
  | 0x38 => some ⟨.Sec, .Implicit⟩
  | 0xF8 => some ⟨.Sed, .Implicit⟩
  | 0x78 => some ⟨.Sei, .Implicit⟩
  | 0x85 => some ⟨.Sta, .ZeroPage⟩
  | 0x95 => some ⟨.Sta, .ZeroPageX⟩
  | 0x8D => some ⟨.Sta, .Absolute⟩
  | 0x9D => some ⟨.Sta, .AbsoluteX⟩
  | 0x99 => some ⟨.Sta, .AbsoluteY⟩
  | 0x81 => some ⟨.Sta, .IndexedIndirect⟩
  | 0x91 => some ⟨.Sta, .IndirectIndexed⟩
  | 0x86 => some ⟨.Stx, .ZeroPage⟩
  | 0x96 => some ⟨.Stx, .ZeroPageY⟩
  | 0x8E => some ⟨.Stx, .Absolute⟩
  | 0x84 => some ⟨.Sty, .ZeroPage⟩
  | 0x94 => some ⟨.Sty, .ZeroPageX⟩
  | 0x8C => some ⟨.Sty, .Absolute⟩
  | 0xAA => some ⟨.Tax, .Implicit⟩
  | 0xA8 => some ⟨.Tay, .Implicit⟩
  | 0xBA => some ⟨.Tsx, .Implicit⟩
  | 0x8A => some ⟨.Txa, .Implicit⟩
  | 0x9A => some ⟨.Txs, .Implicit⟩
  | 0x98 => some ⟨.Tya, .Implicit⟩
  | _ => none

/-- `Cpu::execute_next_instruction`: fetch, decode (`invalid_opcode` panics on
a decode failure), dispatch. -/
def Cpu.execute_next_instruction (cpu : Cpu) : Option Cpu :=
  (cpu.fetch_and_advance_pc).bind fun r =>
    match Instruction.try_from r.1 with
    | none => none
    | some instruction =>
      let m := instruction.addressing_mode
      match instruction.opcode with
      | .Adc => r.2.execute_adc m
      | .And => r.2.execute_and m
      | .Asl => r.2.execute_asl m
      | .Bcc => r.2.execute_bcc m
      | .Bcs => r.2.execute_bcs m
      | .Beq => r.2.execute_beq m
      | .Bit => r.2.execute_bit m
      | .Bmi => r.2.execute_bmi m
      | .Bne => r.2.execute_bne m
      | .Bpl => r.2.execute_bpl m
      | .Brk => r.2.execute_brk m
      | .Bvc => r.2.execute_bvc m
      | .Bvs => r.2.execute_bvs m
      | .Clc => r.2.execute_clc m
      | .Cld => r.2.execute_cld m
      | .Cli => r.2.execute_cli m
      | .Clv => r.2.execute_clv m
      | .Cmp => r.2.execute_cmp m
      | .Cpx => r.2.execute_cpx m
      | .Cpy => r.2.execute_cpy m
      | .Dec => r.2.execute_dec m
      | .Dex => r.2.execute_dex m
      | .Dey => r.2.execute_dey m
      | .Eor => r.2.execute_eor m
      | .Inc => r.2.execute_inc m
      | .Inx => r.2.execute_inx m
      | .Iny => r.2.execute_iny m
      | .Jmp => r.2.execute_jmp m
      | .Jsr => r.2.execute_jsr m
      | .Lda => r.2.execute_lda m
      | .Ldx => r.2.execute_ldx m
      | .Ldy => r.2.execute_ldy m
      | .Lsr => r.2.execute_lsr m
      | .Nop => some r.2
      | .Ora => r.2.execute_ora m
      | .Pha => r.2.execute_pha m
      | .Php => r.2.execute_php m
      | .Pla => r.2.execute_pla m
      | .Plp => r.2.execute_plp m
      | .Rol => r.2.execute_rol m
      | .Ror => r.2.execute_ror m
      | .Rti => r.2.execute_rti m
      | .Rts => r.2.execute_rts m
      | .Sbc => r.2.execute_sbc m
      | .Sec => r.2.execute_sec m
      | .Sed => r.2.execute_sed m
      | .Sei => r.2.execute_sei m
      | .Sta => r.2.execute_sta m
      | .Stx => r.2.execute_stx m
      | .Sty => r.2.execute_sty m
      | .Tax => r.2.execute_tax m
      | .Tay => r.2.execute_tay m
      | .Tsx => r.2.execute_tsx m
      | .Txa => r.2.execute_txa m
      | .Txs => r.2.execute_txs m
      | .Tya => r.2.execute_tya m

/-- Modelled from the spec: the published legal-encoding table of the target
(6502) instruction set referenced by §4.1 ("must match the full published
table of legal encodings") and §8 ("the published table").  Transcribed from
the standard MOS 6502 opcode chart: each triple is
(opcode byte, operation, addressing mode); 151 legal encodings. -/
def spec_published_table : List (Nat × Opcode × AddressingMode) :=
  [(0x69, Opcode.Adc, AddressingMode.Immediate),
   (0x65, Opcode.Adc, AddressingMode.ZeroPage),
   (0x75, Opcode.Adc, AddressingMode.ZeroPageX),
   (0x6D, Opcode.Adc, AddressingMode.Absolute),
   (0x7D, Opcode.Adc, AddressingMode.AbsoluteX),
   (0x79, Opcode.Adc, AddressingMode.AbsoluteY),
   (0x61, Opcode.Adc, AddressingMode.IndexedIndirect),
   (0x71, Opcode.Adc, AddressingMode.IndirectIndexed),
   (0x29, Opcode.And, AddressingMode.Immediate),
   (0x25, Opcode.And, AddressingMode.ZeroPage),
   (0x35, Opcode.And, AddressingMode.ZeroPageX),
   (0x2D, Opcode.And, AddressingMode.Absolute),
   (0x3D, Opcode.And, AddressingMode.AbsoluteX),
   (0x39, Opcode.And, AddressingMode.AbsoluteY),
   (0x21, Opcode.And, AddressingMode.IndexedIndirect),
   (0x31, Opcode.And, AddressingMode.IndirectIndexed),
   (0x0A, Opcode.Asl, AddressingMode.Accumulator),
   (0x06, Opcode.Asl, AddressingMode.ZeroPage),
   (0x16, Opcode.Asl, AddressingMode.ZeroPageX),
   (0x0E, Opcode.Asl, AddressingMode.Absolute),
   (0x1E, Opcode.Asl, AddressingMode.AbsoluteX),
   (0x90, Opcode.Bcc, AddressingMode.Relative),
   (0xB0, Opcode.Bcs, AddressingMode.Relative),
   (0xF0, Opcode.Beq, AddressingMode.Relative),
   (0x24, Opcode.Bit, AddressingMode.ZeroPage),
   (0x2C, Opcode.Bit, AddressingMode.Absolute),
   (0x30, Opcode.Bmi, AddressingMode.Relative),
   (0xD0, Opcode.Bne, AddressingMode.Relative),
   (0x10, Opcode.Bpl, AddressingMode.Relative),
   (0x00, Opcode.Brk, AddressingMode.Implicit),
   (0x50, Opcode.Bvc, AddressingMode.Relative),
   (0x70, Opcode.Bvs, AddressingMode.Relative),
   (0x18, Opcode.Clc, AddressingMode.Implicit),
   (0xD8, Opcode.Cld, AddressingMode.Implicit),
   (0x58, Opcode.Cli, AddressingMode.Implicit),
   (0xB8, Opcode.Clv, AddressingMode.Implicit),
   (0xC9, Opcode.Cmp, AddressingMode.Immediate),
   (0xC5, Opcode.Cmp, AddressingMode.ZeroPage),
   (0xD5, Opcode.Cmp, AddressingMode.ZeroPageX),
   (0xCD, Opcode.Cmp, AddressingMode.Absolute),
   (0xDD, Opcode.Cmp, AddressingMode.AbsoluteX),
   (0xD9, Opcode.Cmp, AddressingMode.AbsoluteY),
   (0xC1, Opcode.Cmp, AddressingMode.IndexedIndirect),
   (0xD1, Opcode.Cmp, AddressingMode.IndirectIndexed),
   (0xE0, Opcode.Cpx, AddressingMode.Immediate),
   (0xE4, Opcode.Cpx, AddressingMode.ZeroPage),
   (0xEC, Opcode.Cpx, AddressingMode.Absolute),
   (0xC0, Opcode.Cpy, AddressingMode.Immediate),
   (0xC4, Opcode.Cpy, AddressingMode.ZeroPage),
   (0xCC, Opcode.Cpy, AddressingMode.Absolute),
   (0xC6, Opcode.Dec, AddressingMode.ZeroPage),
   (0xD6, Opcode.Dec, AddressingMode.ZeroPageX),
   (0xCE, Opcode.Dec, AddressingMode.Absolute),
   (0xDE, Opcode.Dec, AddressingMode.AbsoluteX),
   (0xCA, Opcode.Dex, AddressingMode.Implicit),
   (0x88, Opcode.Dey, AddressingMode.Implicit),
   (0x49, Opcode.Eor, AddressingMode.Immediate),
   (0x45, Opcode.Eor, AddressingMode.ZeroPage),
   (0x55, Opcode.Eor, AddressingMode.ZeroPageX),
   (0x4D, Opcode.Eor, AddressingMode.Absolute),
   (0x5D, Opcode.Eor, AddressingMode.AbsoluteX),
   (0x59, Opcode.Eor, AddressingMode.AbsoluteY),
   (0x41, Opcode.Eor, AddressingMode.IndexedIndirect),
   (0x51, Opcode.Eor, AddressingMode.IndirectIndexed),
   (0xE6, Opcode.Inc, AddressingMode.ZeroPage),
   (0xF6, Opcode.Inc, AddressingMode.ZeroPageX),
   (0xEE, Opcode.Inc, AddressingMode.Absolute),
   (0xFE, Opcode.Inc, AddressingMode.AbsoluteX),
   (0xE8, Opcode.Inx, AddressingMode.Implicit),
   (0xC8, Opcode.Iny, AddressingMode.Implicit),
   (0x4C, Opcode.Jmp, AddressingMode.Absolute),
   (0x6C, Opcode.Jmp, AddressingMode.Indirect),
   (0x20, Opcode.Jsr, AddressingMode.Absolute),
   (0xA9, Opcode.Lda, AddressingMode.Immediate),
   (0xA5, Opcode.Lda, AddressingMode.ZeroPage),
   (0xB5, Opcode.Lda, AddressingMode.ZeroPageX),
   (0xAD, Opcode.Lda, AddressingMode.Absolute),
   (0xBD, Opcode.Lda, AddressingMode.AbsoluteX),
   (0xB9, Opcode.Lda, AddressingMode.AbsoluteY),
   (0xA1, Opcode.Lda, AddressingMode.IndexedIndirect),
   (0xB1, Opcode.Lda, AddressingMode.IndirectIndexed),
   (0xA2, Opcode.Ldx, AddressingMode.Immediate),
   (0xA6, Opcode.Ldx, AddressingMode.ZeroPage),
   (0xB6, Opcode.Ldx, AddressingMode.ZeroPageY),
   (0xAE, Opcode.Ldx, AddressingMode.Absolute),
   (0xBE, Opcode.Ldx, AddressingMode.AbsoluteY),
   (0xA0, Opcode.Ldy, AddressingMode.Immediate),
   (0xA4, Opcode.Ldy, AddressingMode.ZeroPage),
   (0xB4, Opcode.Ldy, AddressingMode.ZeroPageX),
   (0xAC, Opcode.Ldy, AddressingMode.Absolute),
   (0xBC, Opcode.Ldy, AddressingMode.AbsoluteX),
   (0x4A, Opcode.Lsr, AddressingMode.Accumulator),
   (0x46, Opcode.Lsr, AddressingMode.ZeroPage),
   (0x56, Opcode.Lsr, AddressingMode.ZeroPageX),
   (0x4E, Opcode.Lsr, AddressingMode.Absolute),
   (0x5E, Opcode.Lsr, AddressingMode.AbsoluteX),
   (0xEA, Opcode.Nop, AddressingMode.Implicit),
   (0x09, Opcode.Ora, AddressingMode.Immediate),
   (0x05, Opcode.Ora, AddressingMode.ZeroPage),
   (0x15, Opcode.Ora, AddressingMode.ZeroPageX),
   (0x0D, Opcode.Ora, AddressingMode.Absolute),
   (0x1D, Opcode.Ora, AddressingMode.AbsoluteX),
   (0x19, Opcode.Ora, AddressingMode.AbsoluteY),
   (0x01, Opcode.Ora, AddressingMode.IndexedIndirect),
   (0x11, Opcode.Ora, AddressingMode.IndirectIndexed),
   (0x48, Opcode.Pha, AddressingMode.Implicit),
   (0x08, Opcode.Php, AddressingMode.Implicit),
   (0x68, Opcode.Pla, AddressingMode.Implicit),
   (0x28, Opcode.Plp, AddressingMode.Implicit),
   (0x2A, Opcode.Rol, AddressingMode.Accumulator),
   (0x26, Opcode.Rol, AddressingMode.ZeroPage),
   (0x36, Opcode.Rol, AddressingMode.ZeroPageX),
   (0x2E, Opcode.Rol, AddressingMode.Absolute),
   (0x3E, Opcode.Rol, AddressingMode.AbsoluteX),
   (0x6A, Opcode.Ror, AddressingMode.Accumulator),
   (0x66, Opcode.Ror, AddressingMode.ZeroPage),
   (0x76, Opcode.Ror, AddressingMode.ZeroPageX),
   (0x6E, Opcode.Ror, AddressingMode.Absolute),
   (0x7E, Opcode.Ror, AddressingMode.AbsoluteX),
   (0x40, Opcode.Rti, AddressingMode.Implicit),
   (0x60, Opcode.Rts, AddressingMode.Implicit),
   (0xE9, Opcode.Sbc, AddressingMode.Immediate),
   (0xE5, Opcode.Sbc, AddressingMode.ZeroPage),
   (0xF5, Opcode.Sbc, AddressingMode.ZeroPageX),
   (0xED, Opcode.Sbc, AddressingMode.Absolute),
   (0xFD, Opcode.Sbc, AddressingMode.AbsoluteX),
   (0xF9, Opcode.Sbc, AddressingMode.AbsoluteY),
   (0xE1, Opcode.Sbc, AddressingMode.IndexedIndirect),
   (0xF1, Opcode.Sbc, AddressingMode.IndirectIndexed),
   (0x38, Opcode.Sec, AddressingMode.Implicit),
   (0xF8, Opcode.Sed, AddressingMode.Implicit),
   (0x78, Opcode.Sei, AddressingMode.Implicit),
   (0x85, Opcode.Sta, AddressingMode.ZeroPage),
   (0x95, Opcode.Sta, AddressingMode.ZeroPageX),
   (0x8D, Opcode.Sta, AddressingMode.Absolute),
   (0x9D, Opcode.Sta, AddressingMode.AbsoluteX),
   (0x99, Opcode.Sta, AddressingMode.AbsoluteY),
   (0x81, Opcode.Sta, AddressingMode.IndexedIndirect),
   (0x91, Opcode.Sta, AddressingMode.IndirectIndexed),
   (0x86, Opcode.Stx, AddressingMode.ZeroPage),
   (0x96, Opcode.Stx, AddressingMode.ZeroPageY),
   (0x8E, Opcode.Stx, AddressingMode.Absolute),
   (0x84, Opcode.Sty, AddressingMode.ZeroPage),
   (0x94, Opcode.Sty, AddressingMode.ZeroPageX),
   (0x8C, Opcode.Sty, AddressingMode.Absolute),
   (0xAA, Opcode.Tax, AddressingMode.Implicit),
   (0xA8, Opcode.Tay, AddressingMode.Implicit),
   (0xBA, Opcode.Tsx, AddressingMode.Implicit),
   (0x8A, Opcode.Txa, AddressingMode.Implicit),
   (0x9A, Opcode.Txs, AddressingMode.Implicit),
   (0x98, Opcode.Tya, AddressingMode.Implicit)]

/-- Whether the decoder's answer for byte `b` agrees with the published
table: a decoded instruction must be the table's entry for `b` (looked up by
key), and a decode failure is only allowed when the table has no entry for
`b`. -/
def decode_matches_table (b : Nat) : Bool :=
  match Instruction.try_from b, spec_published_table.lookup b with
  | some i, some e => (i.opcode, i.addressing_mode) == e
  | none, none => true
  | _, _ => false

/-- The opcodes whose handlers are `todo!()` stubs in the source. -/
def stub_opcodes : List Opcode :=
  [.And, .Asl, .Bcc, .Bcs, .Beq, .Bit, .Bmi, .Bne, .Bpl, .Brk, .Bvc, .Bvs,
   .Clc, .Cld, .Cli, .Clv, .Cmp, .Cpx, .Cpy, .Dec, .Dex, .Dey, .Eor, .Inc,
   .Inx, .Iny, .Sbc, .Sec, .Sed, .Sei, .Sta, .Stx, .Sty, .Tax, .Tay, .Tsx,
   .Txa, .Txs, .Tya]

/-! ### Concrete test states (wiring in the style of `src/main.rs`) -/

/-- Program image `ADC #0x07` at the code start. -/
def cpu_adc_test : Cpu :=
  { Cpu.new (Memory.ofList [(0xC000, 0x69), (0xC001, 0x07)]) with a := 0x03 }

/-- Program image `JSR 0xC010` at the code start. -/
def cpu_jsr_test : Cpu :=
  Cpu.new (Memory.ofList [(0xC000, 0x20), (0xC001, 0x10), (0xC002, 0xC0)])

/-- A state ready to execute `RTS` after `cpu_jsr_test` ran its `JSR`:
stack pointer two below, return address 0xC001 on the stack. -/
def cpu_rts_test : Cpu :=
  { Cpu.new (Memory.ofList [(0x01FF, 0xC0), (0x01FE, 0x01)]) with sp := 0xFD }

/-- Program image `AND #..` (opcode 0x29) at the code start. -/
def cpu_and_test : Cpu := Cpu.new (Memory.ofList [(0xC000, 0x29)])

/-- Program image `ROL $10` at the code start with `A = 0x55` and the
addressed byte 0x0010 holding 0x01. -/
def cpu_rol_test : Cpu :=
  { Cpu.new (Memory.ofList [(0xC000, 0x26), (0xC001, 0x10), (0x0010, 0x01)]) with
    a := 0x55 }

/-- A state about to `PLP` a byte with only bit 5 (the `_Unused` flag) set. -/
def cpu_plp_unused_test : Cpu :=
  { Cpu.new (Memory.ofList [(0x01FF, 0x20)]) with sp := 0xFE }

/-- A state about to `PLP` the byte 0x00. -/
def cpu_plp_zero_test : Cpu := { Cpu.new Memory.new with sp := 0xFE }

/-- A state whose program counter sits at the very top of the address space. -/
def cpu_pc_top_test : Cpu := { Cpu.new Memory.new with pc := 0xFFFF }

/-- Program image `JMP (indirect)` operand bytes 0xFF 0xFF at the code start:
the indirect pointer address is 0xFFFF. -/
def cpu_indirect_top_test : Cpu :=
  Cpu.new (Memory.ofList [(0xC000, 0xFF), (0xC001, 0xFF)])

/-! ## Helper lemmas -/

/-- A successful fetch returns the byte at `pc` and advances `pc` by one. -/
theorem fetch_eq (cpu : Cpu) (h0 : cpu.pc ≠ 0x0F) (h1 : cpu.pc < 0xFFFF) :
    cpu.fetch_and_advance_pc =
      some (cpu.memory.data cpu.pc, { cpu with pc := cpu.pc + 1 }) := by
  unfold Cpu.fetch_and_advance_pc Memory.read wordAdd MAX_MEMORY
  rw [if_neg h0, if_pos h1, if_pos (show cpu.pc + 1 ≤ 0xFFFF by omega)]
  rfl

/-- A successful push writes at `STACK_START + sp` and decrements `sp`. -/
theorem push_eq (cpu : Cpu) (b : Nat) (hsp0 : cpu.sp ≠ 0) (hsp : cpu.sp ≤ 0xFF) :
    cpu.push b = some { cpu with
      memory := ⟨fun i => if i = STACK_START + cpu.sp then b else cpu.memory.data i⟩,
      sp := cpu.sp - 1 } := by
  simp only [Cpu.push, Memory.write, MAX_MEMORY, STACK_START]
  rw [if_pos (show 0x0100 + cpu.sp < 0xFFFF by omega)]
  show (if cpu.sp = 0 then none else _) = _
  rw [if_neg hsp0]

/-- A successful pop increments `sp` and reads at the new position. -/
theorem pop_eq (cpu : Cpu) (hsp : cpu.sp ≤ 0xFE) :
    cpu.pop = some (cpu.memory.data (STACK_START + (cpu.sp + 1)),
      { cpu with sp := cpu.sp + 1 }) := by
  simp only [Cpu.pop, Memory.read, MAX_MEMORY, STACK_START]
  rw [if_neg (show ¬ cpu.sp = 0xFF by omega),
    if_neg (show ¬ 0x0100 + (cpu.sp + 1) = 0x0F by omega),
    if_pos (show 0x0100 + (cpu.sp + 1) < 0xFFFF by omega)]
  rfl

/-- Reassembling the two pushed bytes of a word below 2^16 recovers it. -/
theorem bytes_recombine (w : Nat) (hw : w < 65536) :
    (((w >>> 8) % 256) <<< 8) ||| (w &&& 0xFF) = w := by
  apply Nat.eq_of_testBit_eq
  intro i
  have h255 : (0xFF : Nat) = 2 ^ 8 - 1 := by norm_num
  have h256 : (256 : Nat) = 2 ^ 8 := by norm_num
  rw [Nat.testBit_lor, Nat.testBit_shiftLeft, h256, Nat.testBit_mod_two_pow,
    Nat.testBit_land, h255, Nat.testBit_two_pow_sub_one, Nat.testBit_shiftRight]
  rcases Nat.lt_or_ge i 8 with h8 | h8
  · simp [show ¬ i ≥ 8 by omega, show i < 8 from h8]
  · rcases Nat.lt_or_ge i 16 with h16 | h16
    · simp [show i ≥ 8 from h8, show ¬ i < 8 by omega, show i - 8 < 8 by omega,
        show 8 + (i - 8) = i by omega]
    · have hw2 : w.testBit i = false := by
        apply Nat.testBit_lt_two_pow
        calc w < 65536 := hw
        _ = 2 ^ 16 := by norm_num
        _ ≤ 2 ^ i := Nat.pow_le_pow_right (by norm_num) h16
      simp [show ¬ i - 8 < 8 by omega, show ¬ i < 8 by omega, hw2]

/-- Inversion of a successful fetch. -/
theorem fetch_inv {cpu : Cpu} {b : Nat} {c : Cpu}
    (h : cpu.fetch_and_advance_pc = some (b, c)) :
    b = cpu.memory.data cpu.pc ∧ c = { cpu with pc := cpu.pc + 1 } ∧
      cpu.pc ≠ 0x0F ∧ cpu.pc < 0xFFFF := by
  by_cases h0 : cpu.pc = 0x0F
  · rw [show cpu.fetch_and_advance_pc = none by
      simp [Cpu.fetch_and_advance_pc, Memory.read, h0]] at h
    exact absurd h (by simp)
  · by_cases h1 : cpu.pc < 0xFFFF
    · rw [fetch_eq cpu h0 h1] at h
      obtain ⟨hb, hc⟩ := Prod.mk.injEq .. ▸ Option.some.inj h
      exact ⟨hb.symm, hc.symm, h0, h1⟩
    · rw [show cpu.fetch_and_advance_pc = none by
        simp [Cpu.fetch_and_advance_pc, Memory.read, MAX_MEMORY, h0,
          show ¬ cpu.pc < 65535 from h1]] at h
      exact absurd h (by simp)

/-- `resolve_argument_address` only ever advances the program counter: memory,
stack pointer, registers and flags are untouched. -/
theorem resolve_address_frame {cpu : Cpu} {mode : AddressingMode} {addr : Nat}
    {c : Cpu} (h : cpu.resolve_argument_address mode = some (addr, c)) :
    c.memory = cpu.memory ∧ c.sp = cpu.sp ∧ c.a = cpu.a ∧ c.x = cpu.x ∧
      c.y = cpu.y ∧ c.status = cpu.status := by
  cases mode
  case Implicit => exact absurd h (by simp [Cpu.resolve_argument_address])
  case Accumulator => exact absurd h (by simp [Cpu.resolve_argument_address])
  case Immediate => exact absurd h (by simp [Cpu.resolve_argument_address])
  case Relative => exact absurd h (by simp [Cpu.resolve_argument_address])
  all_goals
    simp only [Cpu.resolve_argument_address, Option.bind_eq_some,
      Option.map_eq_some'] at h
  all_goals
    repeat
      first
      | (obtain ⟨⟨b1, c1⟩, h1, h⟩ := h
         obtain ⟨-, rfl, -, -⟩ := fetch_inv h1)
      | (obtain ⟨rfl, rfl⟩ := Prod.mk.injEq .. ▸ h
         exact ⟨rfl, rfl, rfl, rfl, rfl, rfl⟩)
      | (obtain ⟨v1, h1, h⟩ := h)
      | (obtain ⟨-, rfl, -, -⟩ := fetch_inv h
         exact ⟨rfl, rfl, rfl, rfl, rfl, rfl⟩)

/-- `resolve_argument_value` only ever advances the program counter. -/
theorem resolve_value_frame {cpu : Cpu} {mode : AddressingMode} {v : Nat}
    {c : Cpu} (h : cpu.resolve_argument_value mode = some (v, c)) :
    c.memory = cpu.memory ∧ c.sp = cpu.sp ∧ c.a = cpu.a ∧ c.x = cpu.x ∧
      c.y = cpu.y ∧ c.status = cpu.status := by
  unfold Cpu.resolve_argument_value at h
  by_cases hI : mode = AddressingMode.Immediate
  · rw [if_pos hI] at h
    obtain ⟨-, rfl, -, -⟩ := fetch_inv h
    exact ⟨rfl, rfl, rfl, rfl, rfl, rfl⟩
  · rw [if_neg hI] at h
    by_cases hA : mode = AddressingMode.Accumulator
    · rw [if_pos hA] at h
      obtain ⟨-, rfl⟩ := Prod.mk.injEq .. ▸ Option.some.inj h
      exact ⟨rfl, rfl, rfl, rfl, rfl, rfl⟩
    · rw [if_neg hA] at h
      simp only [Option.bind_eq_some, Option.map_eq_some'] at h
      obtain ⟨⟨addr, c1⟩, h1, v2, h2, h3⟩ := h
      cases h3
      exact resolve_address_frame h1

/-! ## Claims -/

/-- C1: for every CPU state and every ADC addressing mode, executing ADC with
resolved operand `v` sets `A := (A + v) mod 256`, Carry iff the unsigned sum
exceeds 255, Overflow iff `(A ^ result) & (v ^ result) & 0x80` is nonzero,
and Zero/Negative from the result, leaving SP, X, Y and memory untouched;
and in particular (second conjunct) with no carry-in, `A = a; ADC #b` run
through the full fetch-decode-execute step yields `A = (a + b) mod 256` and
Carry = (a + b ≥ 256). -/
theorem adc_spec :
    (∀ (cpu : Cpu) (mode : AddressingMode) (v : Nat) (c : Cpu),
      cpu.resolve_argument_value mode = some (v, c) →
      ∃ c2, cpu.execute_adc mode = some c2 ∧
        c2.a = (cpu.a + v) % 256 ∧
        c2.status.Carry = decide (255 < cpu.a + v) ∧
        c2.status.Overflow =
          decide (0 < (cpu.a ^^^ (cpu.a + v) % 256) &&& (v ^^^ (cpu.a + v) % 256) &&& 0x80) ∧
        c2.status.Zero = decide ((cpu.a + v) % 256 = 0) ∧
        c2.status.Negative = decide (0 < (cpu.a + v) % 256 &&& 0x80) ∧
        c2.sp = cpu.sp ∧ c2.x = cpu.x ∧ c2.y = cpu.y ∧ c2.memory = cpu.memory) ∧
    (∀ (a b x0 y0 sp0 : Nat) (st : ProcessorStatus), st.Carry = false →
      (Cpu.execute_next_instruction
          { memory := Memory.ofList [(0xC000, 0x69), (0xC001, b)], pc := 0xC000,
            sp := sp0, a := a, x := x0, y := y0, status := st }).map
        (fun c => (c.a, c.status.Carry)) = some ((a + b) % 256, decide (256 ≤ a + b))) := by
  constructor
  · intro cpu mode v c h
    obtain ⟨hm, hsp, ha, hx, hy, hst⟩ := resolve_value_frame h
    unfold Cpu.execute_adc
    rw [h, Option.map_some']
    refine ⟨_, rfl, ?_, ?_, ?_, ?_, ?_, ?_, ?_, ?_, ?_⟩
    · show (c.a + v) % 256 = (cpu.a + v) % 256
      rw [ha]
    · show decide (255 < c.a + v) = decide (255 < cpu.a + v)
      rw [ha]
    · show decide (0 < (c.a ^^^ (c.a + v) % 256) &&& (v ^^^ (c.a + v) % 256) &&& 0x80) = _
      rw [ha]
    · show decide ((c.a + v) % 256 = 0) = decide ((cpu.a + v) % 256 = 0)
      rw [ha]
    · show decide (0 < (c.a + v) % 256 &&& 0b10000000) = _
      rw [ha]
    · exact hsp
    · exact hx
    · exact hy
    · exact hm
  · intro a b x0 y0 sp0 st _
    rfl

/-- Witness for C1 at concrete inputs: `ADC` with operand byte 0x69 resolved
in Immediate mode from `cpu_adc_test`, and the full instruction `ADC #7` on
`A = 3`. -/
theorem adc_spec_witness :
    (∃ c2, cpu_adc_test.execute_adc AddressingMode.Immediate = some c2 ∧
      c2.a = (cpu_adc_test.a + 0x69) % 256 ∧
      c2.status.Carry = decide (255 < cpu_adc_test.a + 0x69) ∧
      c2.status.Overflow =
        decide (0 < (cpu_adc_test.a ^^^ (cpu_adc_test.a + 0x69) % 256) &&&
          (0x69 ^^^ (cpu_adc_test.a + 0x69) % 256) &&& 0x80) ∧
      c2.status.Zero = decide ((cpu_adc_test.a + 0x69) % 256 = 0) ∧
      c2.status.Negative = decide (0 < (cpu_adc_test.a + 0x69) % 256 &&& 0x80) ∧
      c2.sp = cpu_adc_test.sp ∧ c2.x = cpu_adc_test.x ∧ c2.y = cpu_adc_test.y ∧
      c2.memory = cpu_adc_test.memory) ∧
    (Cpu.execute_next_instruction
        { memory := Memory.ofList [(0xC000, 0x69), (0xC001, 7)], pc := 0xC000,
          sp := 0xFF, a := 3, x := 0, y := 0, status := ProcessorStatus.empty }).map
      (fun c => (c.a, c.status.Carry)) = some ((3 + 7) % 256, decide (256 ≤ 3 + 7)) :=
  ⟨adc_spec.1 cpu_adc_test AddressingMode.Immediate 0x69
      { cpu_adc_test with pc := 0xC001 } rfl,
   adc_spec.2 3 7 0 0 0xFF ProcessorStatus.empty rfl⟩

/-- A successful push, described by its observable effects: the byte lands at
`STACK_START + sp`, every other address is untouched, `sp` drops by one, and
nothing else changes. -/
theorem push_spec (cpu : Cpu) (b : Nat) (h0 : cpu.sp ≠ 0) (hsp : cpu.sp ≤ 0xFF) :
    ∃ c2, cpu.push b = some c2 ∧
      c2.memory.data (STACK_START + cpu.sp) = b ∧
      (∀ i, i ≠ STACK_START + cpu.sp → c2.memory.data i = cpu.memory.data i) ∧
      c2.sp = cpu.sp - 1 ∧ c2.pc = cpu.pc ∧ c2.a = cpu.a ∧ c2.x = cpu.x ∧
      c2.y = cpu.y ∧ c2.status = cpu.status := by
  rw [push_eq cpu b h0 hsp]
  refine ⟨_, rfl, by simp, ?_, rfl, rfl, rfl, rfl, rfl, rfl⟩
  intro i hi
  show (if i = STACK_START + cpu.sp then b else cpu.memory.data i) = cpu.memory.data i
  rw [if_neg hi]

/-- C5: `push` writes at stack-page-base + SP then decrements SP, failing
fatally iff SP was already 0; `pop` increments SP, failing fatally iff SP was
already 0xFF, then reads at the new position; and from any state with SP in
2..=0xFF, pushing b1 then b2 and popping twice yields b2 then b1 and restores
the original SP. -/
theorem stack_push_pop_spec :
    (∀ (cpu : Cpu) (b : Nat), cpu.sp ≤ 0xFF →
      (cpu.sp = 0 → cpu.push b = none) ∧
      (cpu.sp ≠ 0 → ∃ c2, cpu.push b = some c2 ∧
        c2.memory.data (STACK_START + cpu.sp) = b ∧
        (∀ i, i ≠ STACK_START + cpu.sp → c2.memory.data i = cpu.memory.data i) ∧
        c2.sp = cpu.sp - 1 ∧ c2.pc = cpu.pc ∧ c2.a = cpu.a ∧ c2.x = cpu.x ∧
        c2.y = cpu.y ∧ c2.status = cpu.status)) ∧
    (∀ cpu : Cpu, cpu.sp ≤ 0xFF →
      (cpu.sp = 0xFF → cpu.pop = none) ∧
      (cpu.sp ≠ 0xFF →
        cpu.pop = some (cpu.memory.data (STACK_START + (cpu.sp + 1)),
          { cpu with sp := cpu.sp + 1 }))) ∧
    (∀ (cpu : Cpu) (b1 b2 : Nat), 2 ≤ cpu.sp → cpu.sp ≤ 0xFF →
      ∃ c1 c2, cpu.push b1 = some c1 ∧ c1.push b2 = some c2 ∧
        ∃ c3, c2.pop = some (b2, c3) ∧ ∃ c4, c3.pop = some (b1, c4) ∧ c4.sp = cpu.sp) := by
  refine ⟨?_, ?_, ?_⟩
  · intro cpu b hsp
    constructor
    · intro h0
      simp [Cpu.push, Memory.write, MAX_MEMORY, h0]
    · intro h0
      exact push_spec cpu b h0 hsp
  · intro cpu hsp
    constructor
    · intro h0
      simp [Cpu.pop, h0]
    · intro h0
      exact pop_eq cpu (by omega)
  · intro cpu b1 b2 h2 hF
    obtain ⟨c1, p1, hw1, hfr1, hsp1, -, -, -, -, -⟩ := push_spec cpu b1 (by omega) hF
    obtain ⟨c2, p2, hw2, hfr2, hsp2, -, -, -, -, -⟩ := push_spec c1 b2 (by omega) (by omega)
    refine ⟨c1, c2, p1, p2, ?_⟩
    have hpop1 := pop_eq c2 (by omega)
    refine ⟨{ c2 with sp := c2.sp + 1 }, ?_, ?_⟩
    · rw [hpop1]
      refine congrArg some (Prod.ext_iff.mpr ⟨?_, rfl⟩)
      rw [show STACK_START + (c2.sp + 1) = STACK_START + c1.sp by omega]
      exact hw2
    · have hpop2 := pop_eq { c2 with sp := c2.sp + 1 } (by show c2.sp + 1 ≤ 0xFE; omega)
      refine ⟨{ c2 with sp := c2.sp + 1 + 1 }, ?_, ?_⟩
      · rw [hpop2]
        refine congrArg some (Prod.ext_iff.mpr ⟨?_, rfl⟩)
        show c2.memory.data (STACK_START + (c2.sp + 1 + 1)) = b1
        rw [show STACK_START + (c2.sp + 1 + 1) = STACK_START + cpu.sp by omega,
          hfr2 _ (by omega)]
        exact hw1
      · show c2.sp + 1 + 1 = cpu.sp
        omega

/-- Witness for C5: the balanced push/push/pop/pop round-trip from the freshly
constructed CPU (SP = 0xFF). -/
theorem stack_push_pop_spec_witness :
    ∃ c1 c2, (Cpu.new Memory.new).push 0x41 = some c1 ∧
      c1.push 0x42 = some c2 ∧ ∃ c3, c2.pop = some (0x42, c3) ∧
      ∃ c4, c3.pop = some (0x41, c4) ∧ c4.sp = (Cpu.new Memory.new).sp :=
  stack_push_pop_spec.2.2 (Cpu.new Memory.new) 0x41 0x42 (by decide) (by decide)

/-- C7: `resolve_argument_address` wraps ZeroPageX/ZeroPageY within 8 bits
(the effective address stays in page 0), wraps AbsoluteX/AbsoluteY within 16
bits, and fails fast (contract violation) for the Accumulator, Implicit and
Immediate modes on every CPU state. -/
theorem resolve_address_modes_spec :
    (∀ cpu : Cpu,
      cpu.resolve_argument_address AddressingMode.Accumulator = none ∧
      cpu.resolve_argument_address AddressingMode.Implicit = none ∧
      cpu.resolve_argument_address AddressingMode.Immediate = none) ∧
    (∀ cpu : Cpu, cpu.pc ≠ 0x0F → cpu.pc < 0xFFFF →
      cpu.resolve_argument_address AddressingMode.ZeroPageX =
        some ((cpu.memory.data cpu.pc + cpu.x) % 256, { cpu with pc := cpu.pc + 1 }) ∧
      cpu.resolve_argument_address AddressingMode.ZeroPageY =
        some ((cpu.memory.data cpu.pc + cpu.y) % 256, { cpu with pc := cpu.pc + 1 }) ∧
      (cpu.memory.data cpu.pc + cpu.x) % 256 < 256 ∧
      (cpu.memory.data cpu.pc + cpu.y) % 256 < 256) ∧
    (∀ cpu : Cpu, cpu.pc ≠ 0x0F → cpu.pc + 1 ≠ 0x0F → cpu.pc + 1 < 0xFFFF →
      cpu.resolve_argument_address AddressingMode.AbsoluteX =
        some (((cpu.memory.data (cpu.pc + 1) <<< 8 ||| cpu.memory.data cpu.pc) + cpu.x) % 65536,
          { cpu with pc := cpu.pc + 1 + 1 }) ∧
      cpu.resolve_argument_address AddressingMode.AbsoluteY =
        some (((cpu.memory.data (cpu.pc + 1) <<< 8 ||| cpu.memory.data cpu.pc) + cpu.y) % 65536,
          { cpu with pc := cpu.pc + 1 + 1 }) ∧
      ((cpu.memory.data (cpu.pc + 1) <<< 8 ||| cpu.memory.data cpu.pc) + cpu.x) % 65536 < 65536 ∧
      ((cpu.memory.data (cpu.pc + 1) <<< 8 ||| cpu.memory.data cpu.pc) + cpu.y) % 65536 < 65536) := by
  refine ⟨fun cpu => ⟨rfl, rfl, rfl⟩, ?_, ?_⟩
  · intro cpu h0 h1
    refine ⟨?_, ?_, Nat.mod_lt _ (by norm_num), Nat.mod_lt _ (by norm_num)⟩
    · unfold Cpu.resolve_argument_address
      simp only [fetch_eq cpu h0 h1, Option.map_some']
    · unfold Cpu.resolve_argument_address
      simp only [fetch_eq cpu h0 h1, Option.map_some']
  · intro cpu h0 h1 h2
    refine ⟨?_, ?_, Nat.mod_lt _ (by norm_num), Nat.mod_lt _ (by norm_num)⟩
    · unfold Cpu.resolve_argument_address
      simp only [fetch_eq cpu h0 (by omega),
        fetch_eq { cpu with pc := cpu.pc + 1 } h1 h2,
        Option.some_bind, Option.map_some']
    · unfold Cpu.resolve_argument_address
      simp only [fetch_eq cpu h0 (by omega),
        fetch_eq { cpu with pc := cpu.pc + 1 } h1 h2,
        Option.some_bind, Option.map_some']

/-- Witness for C7: the fail-fast mode and both wrap rules at the freshly
constructed CPU over zeroed memory. -/
theorem resolve_address_modes_spec_witness :
    (Cpu.new Memory.new).resolve_argument_address AddressingMode.Accumulator = none ∧
    (Cpu.new Memory.new).resolve_argument_address AddressingMode.ZeroPageX =
      some (((Cpu.new Memory.new).memory.data 0xC000 + (Cpu.new Memory.new).x) % 256,
        { Cpu.new Memory.new with pc := 0xC001 }) ∧
    (Cpu.new Memory.new).resolve_argument_address AddressingMode.AbsoluteX =
      some ((((Cpu.new Memory.new).memory.data 0xC001 <<< 8 |||
          (Cpu.new Memory.new).memory.data 0xC000) + (Cpu.new Memory.new).x) % 65536,
        { Cpu.new Memory.new with pc := 0xC002 }) :=
  ⟨(resolve_address_modes_spec.1 _).1,
   (resolve_address_modes_spec.2.1 _ (by decide) (by decide)).1,
   (resolve_address_modes_spec.2.2 _ (by decide) (by decide) (by decide)).1⟩

/-- C3: every handler for AND, ASL, BCC, BCS, BEQ, BIT, BMI, BNE, BPL, BRK,
BVC, BVS, CLC, CLD, CLI, CLV, CMP, CPX, CPY, DEC, DEX, DEY, EOR, INC, INX,
INY, SBC, SEC, SED, SEI, STA, STX, STY, TAX, TAY, TSX, TXA, TXS and TYA is a
`todo!()` stub that panics unconditionally, so a fetch-decode step that lands
on any of these opcodes never completes the instruction. -/
theorem stub_handlers_spec :
    (∀ (cpu : Cpu) (m : AddressingMode),
      cpu.execute_and m = none ∧ cpu.execute_asl m = none ∧
      cpu.execute_bcc m = none ∧ cpu.execute_bcs m = none ∧
      cpu.execute_beq m = none ∧ cpu.execute_bit m = none ∧
      cpu.execute_bmi m = none ∧ cpu.execute_bne m = none ∧
      cpu.execute_bpl m = none ∧ cpu.execute_brk m = none ∧
      cpu.execute_bvc m = none ∧ cpu.execute_bvs m = none ∧
      cpu.execute_clc m = none ∧ cpu.execute_cld m = none ∧
      cpu.execute_cli m = none ∧ cpu.execute_clv m = none ∧
      cpu.execute_cmp m = none ∧ cpu.execute_cpx m = none ∧
      cpu.execute_cpy m = none ∧ cpu.execute_dec m = none ∧
      cpu.execute_dex m = none ∧ cpu.execute_dey m = none ∧
      cpu.execute_eor m = none ∧ cpu.execute_inc m = none ∧
      cpu.execute_inx m = none ∧ cpu.execute_iny m = none ∧
      cpu.execute_sbc m = none ∧ cpu.execute_sec m = none ∧
      cpu.execute_sed m = none ∧ cpu.execute_sei m = none ∧
      cpu.execute_sta m = none ∧ cpu.execute_stx m = none ∧
      cpu.execute_sty m = none ∧ cpu.execute_tax m = none ∧
      cpu.execute_tay m = none ∧ cpu.execute_tsx m = none ∧
      cpu.execute_txa m = none ∧ cpu.execute_txs m = none ∧
      cpu.execute_tya m = none) ∧
    (∀ (cpu : Cpu) (b : Nat) (c : Cpu) (i : Instruction),
      cpu.fetch_and_advance_pc = some (b, c) → Instruction.try_from b = some i →
      i.opcode ∈ stub_opcodes → cpu.execute_next_instruction = none) := by
  constructor
  · intro cpu m
    exact ⟨rfl, rfl, rfl, rfl, rfl, rfl, rfl, rfl, rfl, rfl, rfl, rfl, rfl,
      rfl, rfl, rfl, rfl, rfl, rfl, rfl, rfl, rfl, rfl, rfl, rfl, rfl, rfl,
      rfl, rfl, rfl, rfl, rfl, rfl, rfl, rfl, rfl, rfl, rfl, rfl⟩
  · intro cpu b c i h1 h2 h3
    unfold Cpu.execute_next_instruction
    rw [h1]
    simp only [Option.some_bind]
    rw [h2]
    obtain ⟨op, m⟩ := i
    have h4 : op ∈ stub_opcodes := h3
    cases op <;> first
      | rfl
      | exact absurd h4 (by decide)

/-- Witness for C3: the decoded instruction `AND #..` (byte 0x29) halts the
fetch-decode-execute step. -/
theorem stub_handlers_spec_witness :
    cpu_and_test.execute_next_instruction = none :=
  stub_handlers_spec.2 cpu_and_test 0x29 { cpu_and_test with pc := 0xC001 }
    ⟨Opcode.And, AddressingMode.Immediate⟩ rfl rfl (by decide)

/-- C4 (code bug): executing `ROL $10` — a memory addressing mode — from
`cpu_rol_test` (A = 0x55, byte 0x01 at 0x0010) writes the rotated value 0x02
back to address 0x0010 as specified, but ALSO overwrites the accumulator with
0x02 (the closure in `Cpu::execute_rol` contains `cpu.a = new_value`), whereas
the claim (and `execute_lsr`, the parallel handler) leaves A untouched in
memory modes. -/
theorem rol_memory_mode_clobbers_accumulator :
    cpu_rol_test.a = 0x55 ∧
    (cpu_rol_test.execute_next_instruction).map
      (fun c => (c.a, c.memory.data 0x0010)) = some (0x02, 0x02) :=
  ⟨rfl, rfl⟩

/-- C2: with SP ≥ 2 (and the instruction bytes readable), JSR pushes
(return-address − 1) high byte then low byte — where the return address
`cpu.pc + 2` counts from the opcode at `cpu.pc - 1` — then jumps to the
little-endian target, touching nothing but PC, SP and the two stack bytes;
and a subsequent RTS from any state holding those two stack bytes at the same
stack position resumes at `cpu.pc + 2`, the instruction after the 3-byte JSR,
restoring SP and leaving A, X, Y and all flags unchanged. -/
theorem jsr_rts_roundtrip :
    ∀ cpu : Cpu, 2 ≤ cpu.sp → cpu.sp ≤ 0xFF →
      cpu.pc ≠ 0x0F → cpu.pc + 1 ≠ 0x0F → cpu.pc + 2 ≤ 0xFFFF →
      ∃ c1, cpu.execute_jsr AddressingMode.Absolute = some c1 ∧
        c1.pc = (cpu.memory.data (cpu.pc + 1) <<< 8) ||| cpu.memory.data cpu.pc ∧
        c1.sp = cpu.sp - 2 ∧
        c1.memory.data (STACK_START + cpu.sp) = ((cpu.pc + 1) >>> 8) % 256 ∧
        c1.memory.data (STACK_START + (cpu.sp - 1)) = (cpu.pc + 1) &&& 0xFF ∧
        (∀ i, i ≠ STACK_START + cpu.sp → i ≠ STACK_START + (cpu.sp - 1) →
          c1.memory.data i = cpu.memory.data i) ∧
        c1.a = cpu.a ∧ c1.x = cpu.x ∧ c1.y = cpu.y ∧ c1.status = cpu.status ∧
        (∀ cpu2 : Cpu, cpu2.sp = cpu.sp - 2 →
          cpu2.memory.data (STACK_START + cpu.sp) = ((cpu.pc + 1) >>> 8) % 256 →
          cpu2.memory.data (STACK_START + (cpu.sp - 1)) = (cpu.pc + 1) &&& 0xFF →
          ∃ c3, cpu2.execute_rts AddressingMode.Implicit = some c3 ∧
            c3.pc = cpu.pc + 2 ∧ c3.sp = cpu.sp ∧ c3.a = cpu2.a ∧ c3.x = cpu2.x ∧
            c3.y = cpu2.y ∧ c3.status = cpu2.status ∧ c3.memory = cpu2.memory) := by
  intro cpu hsp2 hspF hp0 hp1 hp2
  unfold Cpu.execute_jsr
  rw [if_pos rfl]
  unfold Cpu.resolve_argument_address
  simp only [fetch_eq cpu hp0 (by omega),
    fetch_eq { cpu with pc := cpu.pc + 1 } hp1 (by show cpu.pc + 1 < 0xFFFF; omega),
    Option.some_bind, Option.map_some']
  rw [show wordSub (cpu.pc + 1 + 1) 1 = some (cpu.pc + 1) from by
    unfold wordSub
    rw [if_pos (by omega)]
    exact congrArg some (by omega)]
  simp only [Option.some_bind]
  rw [push_eq { cpu with pc := cpu.pc + 1 + 1 } (((cpu.pc + 1) >>> 8) % 256)
    (by show cpu.sp ≠ 0; omega) (by show cpu.sp ≤ 0xFF; exact hspF)]
  simp only [Option.some_bind]
  rw [push_eq _ ((cpu.pc + 1) &&& 0xFF)
    (by show cpu.sp - 1 ≠ 0; omega) (by show cpu.sp - 1 ≤ 0xFF; omega)]
  simp only [Option.map_some']
  refine ⟨_, rfl, rfl, ?_, ?_, ?_, ?_, rfl, rfl, rfl, rfl, ?_⟩
  · show cpu.sp - 1 - 1 = cpu.sp - 2
    omega
  · show (if STACK_START + cpu.sp = STACK_START + (cpu.sp - 1) then (cpu.pc + 1) &&& 0xFF
      else if STACK_START + cpu.sp = STACK_START + cpu.sp then ((cpu.pc + 1) >>> 8) % 256
      else cpu.memory.data (STACK_START + cpu.sp)) = ((cpu.pc + 1) >>> 8) % 256
    rw [if_neg (by omega), if_pos rfl]
  · show (if STACK_START + (cpu.sp - 1) = STACK_START + (cpu.sp - 1) then (cpu.pc + 1) &&& 0xFF
      else if STACK_START + (cpu.sp - 1) = STACK_START + cpu.sp then ((cpu.pc + 1) >>> 8) % 256
      else cpu.memory.data (STACK_START + (cpu.sp - 1))) = (cpu.pc + 1) &&& 0xFF
    rw [if_pos rfl]
  · intro i hi1 hi2
    show (if i = STACK_START + (cpu.sp - 1) then (cpu.pc + 1) &&& 0xFF
      else if i = STACK_START + cpu.sp then ((cpu.pc + 1) >>> 8) % 256
      else cpu.memory.data i) = cpu.memory.data i
    rw [if_neg hi2, if_neg hi1]
  · intro cpu2 e1 e2 e3
    unfold Cpu.execute_rts
    rw [if_pos rfl]
    simp only [pop_eq cpu2 (by omega), Option.some_bind]
    simp only [pop_eq { cpu2 with sp := cpu2.sp + 1 }
      (by show cpu2.sp + 1 ≤ 0xFE; omega), Option.some_bind]
    rw [show STACK_START + (cpu2.sp + 1) = STACK_START + (cpu.sp - 1) by omega,
      show STACK_START + (cpu2.sp + 1 + 1) = STACK_START + cpu.sp by omega, e2, e3,
      bytes_recombine (cpu.pc + 1) (by omega)]
    rw [show wordAdd (cpu.pc + 1) 1 = some (cpu.pc + 2) from by
      unfold wordAdd
      rw [if_pos (by omega)]]
    simp only [Option.map_some']
    refine ⟨_, rfl, rfl, ?_, rfl, rfl, rfl, rfl, rfl⟩
    show cpu2.sp + 1 + 1 = cpu.sp
    omega

/-- Witness for C2: running `JSR 0xC010` at 0xC000 (via the JSR half at
`cpu_jsr_test`), then RTS from the matching stack state `cpu_rts_test`
resumes at 0xC003, the instruction after the JSR. -/
theorem jsr_rts_roundtrip_witness :
    ∃ c3, cpu_rts_test.execute_rts AddressingMode.Implicit = some c3 ∧
      c3.pc = 0xC000 + 2 ∧ c3.sp = 0xFF ∧ c3.a = cpu_rts_test.a ∧
      c3.x = cpu_rts_test.x ∧ c3.y = cpu_rts_test.y ∧
      c3.status = cpu_rts_test.status ∧ c3.memory = cpu_rts_test.memory := by
  obtain ⟨c1, -, -, -, -, -, -, -, -, -, -, hrts⟩ :=
    jsr_rts_roundtrip cpu_jsr_test (by decide) (by decide) (by decide)
      (by decide) (by decide)
  exact hrts cpu_rts_test (by decide) (by decide) (by decide)

/-- The decoder agrees with the published table on one 16-byte stripe;
checked by kernel evaluation stripe by stripe (lemmas below). -/
def decode_stripe (s : Nat) : Bool :=
  (List.range 16).all (fun k => decode_matches_table (16 * s + k))

set_option maxHeartbeats 1000000 in
set_option maxRecDepth 10000 in
theorem decode_stripe_0 : decode_stripe 0 = true := by rfl

set_option maxHeartbeats 1000000 in
set_option maxRecDepth 10000 in
theorem decode_stripe_1 : decode_stripe 1 = true := by rfl

set_option maxHeartbeats 1000000 in
set_option maxRecDepth 10000 in
theorem decode_stripe_2 : decode_stripe 2 = true := by rfl

set_option maxHeartbeats 1000000 in
set_option maxRecDepth 10000 in
theorem decode_stripe_3 : decode_stripe 3 = true := by rfl

set_option maxHeartbeats 1000000 in
set_option maxRecDepth 10000 in
theorem decode_stripe_4 : decode_stripe 4 = true := by rfl

set_option maxHeartbeats 1000000 in
set_option maxRecDepth 10000 in
theorem decode_stripe_5 : decode_stripe 5 = true := by rfl

set_option maxHeartbeats 1000000 in
set_option maxRecDepth 10000 in
theorem decode_stripe_6 : decode_stripe 6 = true := by rfl

set_option maxHeartbeats 1000000 in
set_option maxRecDepth 10000 in
theorem decode_stripe_7 : decode_stripe 7 = true := by rfl

set_option maxHeartbeats 1000000 in
set_option maxRecDepth 10000 in
theorem decode_stripe_8 : decode_stripe 8 = true := by rfl

set_option maxHeartbeats 1000000 in
set_option maxRecDepth 10000 in
theorem decode_stripe_9 : decode_stripe 9 = true := by rfl

set_option maxHeartbeats 1000000 in
set_option maxRecDepth 10000 in
theorem decode_stripe_10 : decode_stripe 10 = true := by rfl

set_option maxHeartbeats 1000000 in
set_option maxRecDepth 10000 in
theorem decode_stripe_11 : decode_stripe 11 = true := by rfl

set_option maxHeartbeats 1000000 in
set_option maxRecDepth 10000 in
theorem decode_stripe_12 : decode_stripe 12 = true := by rfl

set_option maxHeartbeats 1000000 in
set_option maxRecDepth 10000 in
theorem decode_stripe_13 : decode_stripe 13 = true := by rfl

set_option maxHeartbeats 1000000 in
set_option maxRecDepth 10000 in
theorem decode_stripe_14 : decode_stripe 14 = true := by rfl

set_option maxHeartbeats 1000000 in
set_option maxRecDepth 10000 in
theorem decode_stripe_15 : decode_stripe 15 = true := by rfl

/-- Every byte below 256 lies in one of the sixteen stripes, so the decoder
agrees with the published table on all of them. -/
theorem decode_all_bytes : ∀ b : Nat, b < 256 → decode_matches_table b = true := by
  intro b hb
  have key : ∀ s : Nat, s < 16 →
      ((List.range 16).all (fun k => decode_matches_table (16 * s + k))) = true := by
    intro s hs
    interval_cases s
    · exact decode_stripe_0
    · exact decode_stripe_1
    · exact decode_stripe_2
    · exact decode_stripe_3
    · exact decode_stripe_4
    · exact decode_stripe_5
    · exact decode_stripe_6
    · exact decode_stripe_7
    · exact decode_stripe_8
    · exact decode_stripe_9
    · exact decode_stripe_10
    · exact decode_stripe_11
    · exact decode_stripe_12
    · exact decode_stripe_13
    · exact decode_stripe_14
    · exact decode_stripe_15
  have hq : b / 16 < 16 := by omega
  have hr : b % 16 < 16 := by omega
  have hmem : decode_matches_table (16 * (b / 16) + b % 16) = true :=
    List.all_eq_true.mp (key (b / 16) hq) (b % 16) (List.mem_range.mpr hr)
  exact Nat.div_add_mod b 16 ▸ hmem

set_option maxHeartbeats 1000000 in
set_option maxRecDepth 10000 in
/-- The published table assigns each byte at most one encoding. -/
theorem spec_table_keys_nodup : (spec_published_table.map Prod.fst).Nodup := by
  decide

/-- C6: the decoder is a pure total function on bytes: every byte 0x00–0xFF
either decodes to exactly one (Opcode, AddressingMode) pair — the published
table's entry for that byte — or is reported as a decode failure, which only
happens for bytes the published table does not assign; and the table itself
assigns at most one pair per byte. -/
theorem decoder_totality :
    (∀ b : Nat, b < 256 → decode_matches_table b = true) ∧
    (spec_published_table.map Prod.fst).Nodup := by
  constructor
  · exact decode_all_bytes
  · exact spec_table_keys_nodup

/-- Witness for C6 at byte 0x69 (`ADC #imm`). -/
theorem decoder_totality_witness : decode_matches_table 0x69 = true :=
  decoder_totality.1 0x69 (by decide)

/-- C8 counterexample: reading address 0x0F panics ("can't read from
stdout"), and both reading and writing address 0xFFFF index out of bounds of
the 65535-byte backing array, so not every 16-bit address succeeds. -/
theorem memory_access_failures :
    Memory.new.read 0x0F = none ∧ Memory.new.read 0xFFFF = none ∧
    Memory.new.write 0xFFFF 0x00 = none :=
  ⟨rfl, rfl, rfl⟩

/-- C8 amended: for 16-bit addresses, a write succeeds iff the address is not
0xFFFF (the backing array holds only 65535 bytes), and a read succeeds iff
the address is neither 0x0F (memory-mapped stdout, reads panic) nor 0xFFFF;
a successful read returns the stored byte. -/
theorem memory_access_spec :
    ∀ (m : Memory) (a v : Nat), a < 65536 →
      ((m.read a).isSome ↔ a ≠ 0x0F ∧ a ≠ 0xFFFF) ∧
      ((m.write a v).isSome ↔ a ≠ 0xFFFF) ∧
      (a ≠ 0x0F → a ≠ 0xFFFF → m.read a = some (m.data a)) := by
  intro m a v ha
  refine ⟨?_, ?_, ?_⟩
  · by_cases h1 : a = 0x0F
    · simp [Memory.read, h1]
    · by_cases h2 : a = 0xFFFF
      · simp [Memory.read, MAX_MEMORY, h1, h2]
      · simp [Memory.read, MAX_MEMORY, h1, h2, show a < 65535 by omega]
  · by_cases h2 : a = 0xFFFF
    · simp [Memory.write, MAX_MEMORY, h2]
    · simp [Memory.write, MAX_MEMORY, h2, show a < 65535 by omega]
  · intro h1 h2
    unfold Memory.read MAX_MEMORY
    rw [if_neg h1, if_pos (by omega)]

/-- Witness for C8 (amended) at the ordinary address 0xC000. -/
theorem memory_access_spec_witness :
    ((Memory.new.read 0xC000).isSome ↔ (0xC000 : Nat) ≠ 0x0F ∧ (0xC000 : Nat) ≠ 0xFFFF) ∧
    ((Memory.new.write 0xC000 0x05).isSome ↔ (0xC000 : Nat) ≠ 0xFFFF) ∧
    ((0xC000 : Nat) ≠ 0x0F → (0xC000 : Nat) ≠ 0xFFFF →
      Memory.new.read 0xC000 = some (Memory.new.data 0xC000)) :=
  memory_access_spec Memory.new 0xC000 0x05 (by decide)

/-- C9 counterexample: a fetch with the program counter at 0xFFFF fails (the
read indexes out of bounds of the 65535-byte array) instead of wrapping the
program counter, and resolving an Indirect pointer located at 0xFFFF likewise
fails at the memory read before any pointer+1 arithmetic. -/
theorem word_arithmetic_failures :
    cpu_pc_top_test.fetch_and_advance_pc = none ∧
    cpu_indirect_top_test.resolve_argument_address AddressingMode.Indirect = none :=
  ⟨rfl, rfl⟩

/-- C9 amended: arithmetic written with `wrapping_add` wraps (see the
resolver claims), but the program counter and indirect-pointer paths use
plain checked arithmetic and a 65535-byte array: a fetch at pc = 0xFFFF
fails; a fetch anywhere else readable succeeds and advances pc by exactly
one without ever needing to wrap; and an Indirect pointer at 0xFFFF fails at
the read rather than wrapping to 0x0000. -/
theorem word_arithmetic_spec :
    (∀ cpu : Cpu, cpu.pc = 0xFFFF → cpu.fetch_and_advance_pc = none) ∧
    (∀ cpu : Cpu, cpu.pc ≠ 0x0F → cpu.pc < 0xFFFF →
      cpu.fetch_and_advance_pc =
        some (cpu.memory.data cpu.pc, { cpu with pc := cpu.pc + 1 })) ∧
    (∀ cpu : Cpu, cpu.pc ≠ 0x0F → cpu.pc + 1 ≠ 0x0F → cpu.pc + 1 < 0xFFFF →
      cpu.memory.data cpu.pc = 0xFF → cpu.memory.data (cpu.pc + 1) = 0xFF →
      cpu.resolve_argument_address AddressingMode.Indirect = none) := by
  refine ⟨?_, fetch_eq, ?_⟩
  · intro cpu h
    simp [Cpu.fetch_and_advance_pc, Memory.read, MAX_MEMORY, h]
  · intro cpu h0 h1 h2 hd0 hd1
    unfold Cpu.resolve_argument_address
    simp only [fetch_eq cpu h0 (by omega),
      fetch_eq { cpu with pc := cpu.pc + 1 } h1 (by show cpu.pc + 1 < 0xFFFF; omega),
      Option.some_bind]
    rw [hd0, hd1]
    rfl

/-- Witness for C9 (amended): the failing fetch at 0xFFFF, a successful fetch
at the code start, and the failing Indirect resolution. -/
theorem word_arithmetic_spec_witness :
    cpu_pc_top_test.fetch_and_advance_pc = none ∧
    (Cpu.new Memory.new).fetch_and_advance_pc =
      some ((Cpu.new Memory.new).memory.data 0xC000,
        { Cpu.new Memory.new with pc := 0xC001 }) ∧
    cpu_indirect_top_test.resolve_argument_address AddressingMode.Indirect = none :=
  ⟨word_arithmetic_spec.1 cpu_pc_top_test (by decide),
   word_arithmetic_spec.2.1 (Cpu.new Memory.new) (by decide) (by decide),
   word_arithmetic_spec.2.2 cpu_indirect_top_test (by decide) (by decide)
     (by decide) (by decide) (by decide)⟩

/-- C10 counterexample: two states identical except for the byte PLP will
pop (0x20, i.e. only bit 5, versus 0x00) end with different Unused bits, so
after PLP the Unused bit of the status register does depend on the popped
byte — `_Unused` is a declared flag and `from_bits_truncate` keeps it. -/
theorem plp_unused_bit_from_popped_byte :
    (cpu_plp_unused_test.execute_plp AddressingMode.Implicit).map
      (fun c => c.status.Unused) = some true ∧
    (cpu_plp_zero_test.execute_plp AddressingMode.Implicit).map
      (fun c => c.status.Unused) = some false ∧
    cpu_plp_unused_test.sp = cpu_plp_zero_test.sp ∧
    cpu_plp_unused_test.status = cpu_plp_zero_test.status :=
  ⟨rfl, rfl, rfl, rfl⟩

/-- C10 amended: PLP replaces the entire status register from the popped
byte with no bit ignored: every one of the eight flag bits of the new status,
the Unused bit included, equals the corresponding bit of the popped byte. -/
theorem plp_replaces_entire_status :
    ∀ (cpu : Cpu) (b : Nat) (c : Cpu), cpu.pop = some (b, c) →
      cpu.execute_plp AddressingMode.Implicit =
        some { c with status := ProcessorStatus.from_bits_truncate b } ∧
      (ProcessorStatus.from_bits_truncate b).Carry = b.testBit 0 ∧
      (ProcessorStatus.from_bits_truncate b).Zero = b.testBit 1 ∧
      (ProcessorStatus.from_bits_truncate b).InterruptDisable = b.testBit 2 ∧
      (ProcessorStatus.from_bits_truncate b).DecimalMode = b.testBit 3 ∧
      (ProcessorStatus.from_bits_truncate b).Break = b.testBit 4 ∧
      (ProcessorStatus.from_bits_truncate b).Unused = b.testBit 5 ∧
      (ProcessorStatus.from_bits_truncate b).Overflow = b.testBit 6 ∧
      (ProcessorStatus.from_bits_truncate b).Negative = b.testBit 7 := by
  intro cpu b c h
  refine ⟨?_, rfl, rfl, rfl, rfl, rfl, rfl, rfl, rfl⟩
  unfold Cpu.execute_plp
  rw [if_pos rfl, h, Option.map_some']

/-- Witness for C10 (amended): PLP popping the byte 0x20. -/
theorem plp_replaces_entire_status_witness :
    cpu_plp_unused_test.execute_plp AddressingMode.Implicit =
      some { { cpu_plp_unused_test with sp := 0xFF } with
        status := ProcessorStatus.from_bits_truncate 0x20 } :=
  (plp_replaces_entire_status cpu_plp_unused_test 0x20
    { cpu_plp_unused_test with sp := 0xFF } rfl).1

end Emu6502
